import Mathlib

/-
  Shallow embedding of the voice-ai streaming server core
  (src/memory.py, src/audio_streaming.py, src/websocket_protocol.py,
  src/server.py) and proofs about its specified behavior.

  Python strings are modelled as Lean String, byte buffers as List Nat,
  dynamic (untyped) Python values as the PyVal inductive.  Python
  functions that can raise are modelled with Except; the error payload is
  the exception message.
-/

namespace VoiceAI

/-- Decidable equality for Except values, for evaluating the embedded
fallible operations on concrete inputs. -/
instance {ε α : Type} [DecidableEq ε] [DecidableEq α] :
    DecidableEq (Except ε α) := fun a b =>
  match a, b with
  | .ok x, .ok y =>
    if h : x = y then isTrue (by rw [h])
    else isFalse (by intro hc; cases hc; exact h rfl)
  | .error x, .error y =>
    if h : x = y then isTrue (by rw [h])
    else isFalse (by intro hc; cases hc; exact h rfl)
  | .ok _, .error _ => isFalse (by intro hc; cases hc)
  | .error _, .ok _ => isFalse (by intro hc; cases hc)

/-- Whitespace trimming on a character list: drop whitespace from the
front, then from the back. -/
def stripChars (l : List Char) : List Char :=
  ((l.dropWhile Char.isWhitespace).reverse.dropWhile Char.isWhitespace).reverse

/-- Model of Python str.strip(): removes whitespace from both ends.
(ASCII whitespace suffices for the strings this development handles.) -/
def pyStrip (s : String) : String := ⟨stripChars s.data⟩

/-- A dynamic Python value, for fields whose runtime type is not fixed
(for example the is-final field of a transcript message, which the code
can fill with a string). -/
inductive PyVal where
  | str (s : String)
  | boolean (b : Bool)
  | num (n : Nat)
  | pyNone
  deriving DecidableEq, Repr

/- ===================== src/memory.py ===================== -/

/-- One entry of the conversation history, in Gemini API format:
a dict with a role and a parts list of single-text dicts; the parts list
is modelled as the list of its text fields. -/
structure GeminiMessage where
  role : String
  parts : List String
  deriving DecidableEq, Repr

/-- The message dict built by ConversationMemory.add_message:
role plus a singleton parts list. -/
def mkGeminiMessage (role content : String) : GeminiMessage :=
  { role := role, parts := [content] }

/-- VALID_ROLES from src/memory.py. -/
def VALID_ROLES : List String := ["user", "model"]

/-- ConversationMemory state: a capacity and the stored messages. -/
structure ConversationMemory where
  max_messages : Nat
  messages : List GeminiMessage
  deriving DecidableEq, Repr

/-- Model of the Python slice new_messages[-n:] applied when the list is
longer than n: for n = 0 the slice [-0:] is [0:], the whole list; for
n ≥ 1 it keeps the last n elements. -/
def pySliceLast (n : Nat) (l : List GeminiMessage) : List GeminiMessage :=
  if n = 0 then l else l.drop (l.length - n)

/-- The truncation step of add_message: keep the list unless it exceeds
max_messages, in which case apply the slice [-max_messages:]. -/
def truncateToMax (n : Nat) (l : List GeminiMessage) : List GeminiMessage :=
  if l.length > n then pySliceLast n l else l

/-- ConversationMemory.add_message: validates the role against
VALID_ROLES and the content against emptiness (empty or whitespace-only
raises ValueError), appends the new message and enforces the capacity by
the slice new_messages[-max_messages:]. -/
def add_message (m : ConversationMemory) (role content : String) :
    Except String ConversationMemory :=
  if role ∉ VALID_ROLES then
    .error ("Invalid role " ++ role)
  else if content = "" ∨ pyStrip content = "" then
    .error "Content cannot be empty"
  else
    .ok { max_messages := m.max_messages,
          messages := truncateToMax m.max_messages
            (m.messages ++ [mkGeminiMessage role content]) }

/-- ConversationMemory.get_history returns (a deep copy of) the stored
messages. -/
def get_history (m : ConversationMemory) : List GeminiMessage :=
  m.messages

/-- A fresh ConversationMemory of the given capacity. -/
def emptyMemory (n : Nat) : ConversationMemory :=
  { max_messages := n, messages := [] }

/-- A (role, content) pair is a valid add_message argument when the role
is in VALID_ROLES and the content is non-empty after stripping. -/
def validAdd (p : String × String) : Prop :=
  p.1 ∈ VALID_ROLES ∧ p.2 ≠ "" ∧ pyStrip p.2 ≠ ""

instance : DecidablePred validAdd := fun p => by
  unfold validAdd
  infer_instance

/-- Sequence of add_message calls, threading the returned memory; the
first raised ValueError aborts the sequence. -/
def addAll (m : ConversationMemory) :
    List (String × String) → Except String ConversationMemory
  | [] => .ok m
  | p :: rest =>
    match add_message m p.1 p.2 with
    | .ok m2 => addAll m2 rest
    | .error e => .error e

/- ===================== src/audio_streaming.py ===================== -/

/-- AudioBuffer state from src/audio_streaming.py: the accumulated bytes
(byte stream position tell() equals the number of bytes written) and the
max_size capacity.  The asyncio lock serializes operations; the
operations themselves are modelled as pure state transformers. -/
structure AudioBuffer where
  data : List Nat
  max_size : Nat
  deriving DecidableEq, Repr

/-- AudioBuffer.add_chunk: raises AudioStreamingError (buffer overflow)
when the current size plus the chunk would exceed max_size, without
writing; otherwise appends the chunk. -/
def add_chunk (b : AudioBuffer) (chunk : List Nat) :
    Except String AudioBuffer :=
  if b.data.length + chunk.length > b.max_size then
    .error ("Buffer overflow: " ++ toString (b.data.length + chunk.length)
      ++ " > " ++ toString b.max_size)
  else
    .ok { b with data := b.data ++ chunk }

/-- AudioBuffer.get_data returns all buffered bytes. -/
def get_data (b : AudioBuffer) : List Nat := b.data

/-- AudioStreamHandler state: the per-session recording flag and its
AudioBuffer. -/
structure AudioStreamHandler where
  is_recording : Bool
  buffer : AudioBuffer
  deriving DecidableEq, Repr

/-- AudioStreamHandler.add_audio_chunk: raises AudioStreamingError
(not recording) when is_recording is false, before touching the buffer;
otherwise decodes (decoding of an already-byte chunk is the identity)
and delegates to AudioBuffer.add_chunk, wrapping any failure message. -/
def add_audio_chunk (h : AudioStreamHandler) (chunk : List Nat) :
    Except String AudioStreamHandler :=
  if ¬ h.is_recording then
    .error "Not recording audio"
  else
    match add_chunk h.buffer chunk with
    | .ok b => .ok { h with buffer := b }
    | .error e => .error ("Failed to add audio chunk: " ++ e)

/- ===================== outbound events ===================== -/

/-- The outbound events a session can emit to its transport, keyed by
the message constructors of src/websocket_protocol.py.  Audio payloads
are modelled as raw bytes (the code base64-encodes them before sending;
the encoding is a bijection and is left implicit). -/
inductive Event where
  | textResponse (text : String)
  | audioResponse (audio : List Nat)
  | errorEvent (msg : String)
  | statusEvent (msg : String)
  | pong
  deriving DecidableEq, Repr

/- ============ sentence segmentation (src/server.py 274-301) ============ -/

/-- The terminal punctuation list of src/server.py line 285. -/
def terminalMarkers : List Char := ['.', '!', '?', '\n', '。', '！', '？']

/-- Whether a single-character marker occurs in the chunk (Python
substring containment of a one-character string). -/
def containsChar (s : String) (c : Char) : Bool := s.toList.contains c

/-- The sentence-boundary test of line 285: any terminal marker occurs
somewhere in the chunk. -/
def hasTerminal (chunk : String) : Bool :=
  terminalMarkers.any (fun c => containsChar chunk c)

/-- The segmentation state threaded through the stream loop of
handle_text_input: current_sentence, the sentences dispatched so far
(their list position is the SpeakableUnit ordinal), and
sentences_for_context. -/
structure SegState where
  current_sentence : String
  units : List String
  ctx : List String
  deriving DecidableEq, Repr

/-- The initial segmentation state of a response cycle. -/
def segInit : SegState := { current_sentence := "", units := [], ctx := [] }

/-- One iteration of the stream loop restricted to segmentation
(src/server.py lines 278, 285-294): append the chunk to
current_sentence; if the chunk holds a terminal marker, dispatch the
stripped accumulation when it is non-empty (whitespace-only text is
suppressed) and reset the accumulator either way. -/
def feedChunk (s : SegState) (chunk : String) : SegState :=
  let acc := s.current_sentence ++ chunk
  if hasTerminal chunk then
    let u := pyStrip acc
    if u ≠ "" then
      { current_sentence := "", units := s.units ++ [u], ctx := s.ctx ++ [u] }
    else
      { current_sentence := "", units := s.units, ctx := s.ctx }
  else
    { s with current_sentence := acc }

/-- The end-of-stream flush (src/server.py lines 297-301): dispatch the
stripped remainder when non-empty. -/
def flushSeg (s : SegState) : List String :=
  if pyStrip s.current_sentence ≠ "" then
    s.units ++ [pyStrip s.current_sentence]
  else s.units

/-- The full list of dispatched sentences for a completed stream of
chunks: fold the loop body, then flush. -/
def segmentUnits (chunks : List String) : List String :=
  flushSeg (chunks.foldl feedChunk segInit)

/- ============ per-unit synthesis task (src/server.py 207-271) ============ -/

/-- The body of stream_sentence_audio for one SpeakableUnit, as a
function of the outcomes of the two possible synthesize calls: the
primary TTS client's attempt and the fallback Edge-TTS attempt.  The
function returns the events this task sends to the transport together
with the number of fallback attempts it makes.  A whitespace-only
sentence returns immediately.  A primary success sends the audio; a
primary failure is caught and answered by exactly one fallback attempt;
a fallback failure is caught, logged, and produces no event at all (the
task returns normally, so the cycle is not aborted). -/
def stream_sentence_audio (sentence : String)
    (primary fallback : Except String (List Nat)) : List Event × Nat :=
  if pyStrip sentence = "" then ([], 0)
  else
    match primary with
    | .ok audio => ([.audioResponse audio], 0)
    | .error _ =>
      match fallback with
      | .ok audio => ([.audioResponse audio], 1)
      | .error _ => ([], 1)

/- ====== concurrent task completion order (src/server.py 288-305) ====== -/

/-- Scheduler state for the per-sentence synthesis tasks of one response
cycle: the ordinals of tasks whose synthesize call has not yet
completed, and the transport log of audio events already sent,
identified by the ordinal of the sending task. -/
structure SchedState where
  pending : List Nat
  log : List Nat
  deriving DecidableEq, Repr

/-- One completion event: the task with ordinal i finishes its
synthesize call and immediately sends its audio message (src/server.py
lines 235-239 run inside the task itself; nothing reorders the send).
A completion for an ordinal that is not pending changes nothing. -/
def schedStep (s : SchedState) (i : Nat) : SchedState :=
  if i ∈ s.pending then
    { pending := s.pending.erase i, log := s.log ++ [i] }
  else s

/-- Run a response cycle with n dispatched units (ordinals 0..n-1, all
tasks created before any completes) against a given synthesis
completion order. -/
def runSched (n : Nat) (completionSeq : List Nat) : SchedState :=
  completionSeq.foldl schedStep { pending := List.range n, log := [] }

/- ============ handle_text_input (src/server.py 178-326) ============ -/

/-- The observable outcome of one LLM stream: the text fragments the
generator yields, and, when the stream fails, the provider error raised
after those fragments. -/
structure LLMStream where
  chunks : List String
  err : Option String
  deriving DecidableEq, Repr

/-- The sequential path of handle_text_input as a function of the LLM
stream outcome: append the user Turn (an invalid text propagates the
ValueError, modelled as the outer Except layer), then send one
text-delta per fragment while segmenting; on a provider error, send an
error event and keep only the user Turn; on success, flush the
segmenter and append the assistant Turn when the concatenated response
is non-empty (an append failure there is caught by the generic handler
and surfaced as an internal error).  The returned triple is the updated
memory, the events sent on this sequential path (the audio events are
sent concurrently by the per-unit tasks, modelled by
stream_sentence_audio and runSched), and the dispatched sentences. -/
def handle_text_input (mem : ConversationMemory) (text : String)
    (stream : LLMStream) :
    Except String (ConversationMemory × List Event × List String) :=
  match add_message mem "user" text with
  | .error e => .error e
  | .ok memUser =>
    let seg := stream.chunks.foldl feedChunk segInit
    let textEvents := stream.chunks.map Event.textResponse
    match stream.err with
    | some e => .ok (memUser, textEvents ++ [Event.errorEvent e], seg.units)
    | none =>
      let units := flushSeg seg
      let full := String.join stream.chunks
      if full = "" then .ok (memUser, textEvents, units)
      else
        match add_message memUser "model" full with
        | .ok memFinal => .ok (memFinal, textEvents, units)
        | .error e2 =>
          .ok (memUser,
               textEvents ++ [Event.errorEvent ("Internal error: " ++ e2)],
               units)

/- ===================== src/websocket_protocol.py ===================== -/

/-- The WebSocketMessage envelope: type, data (a dict of dynamic
values), session id, timestamp. -/
structure WSMessage where
  type : String
  data : List (String × PyVal)
  session_id : Option String
  timestamp : Option Nat
  deriving DecidableEq, Repr

/-- Dict lookup on a message's data. -/
def lookupField (d : List (String × PyVal)) (k : String) : Option PyVal :=
  (d.find? (fun p => p.1 = k)).map Prod.snd

/-- create_transcript_message from src/websocket_protocol.py lines
161-174: its second parameter is is-final (Python default False), its
third is the session id (Python default None); the data dict carries
the transcript and the is-final value as given. -/
def create_transcript_message (transcript : String) (is_final : PyVal)
    (session_id : Option String) : WSMessage :=
  { type := "transcript",
    data := [("transcript", .str transcript), ("is_final", is_final)],
    session_id := session_id,
    timestamp := none }

/-- The call site in handle_stop_recording (src/server.py line 466):
create_transcript_message(transcript_text, session_id) passes the
session id positionally into the is-final slot and leaves the session
id parameter at its default None. -/
def stop_recording_transcript_msg (transcript_text session_id : String) :
    WSMessage :=
  create_transcript_message transcript_text (.str session_id) none

/-- The call site in handle_vad_audio (src/server.py line 409): the
same positional call shape as in handle_stop_recording. -/
def vad_audio_transcript_msg (transcript_text session_id : String) :
    WSMessage :=
  create_transcript_message transcript_text (.str session_id) none

/-- The member values of the MessageType enum.  WebSocketMessage
.from_json builds MessageType(data[type]), which raises ValueError for
any string outside this list. -/
def messageTypeValues : List String :=
  ["text_input", "audio_chunk", "start_recording", "stop_recording",
   "vad_audio", "text_response", "audio_response", "transcript",
   "status", "error", "ping", "pong"]

/-- MessageType(value): some member on success, none modelling the
ValueError raised for a non-member string. -/
def parseMessageType (t : String) : Option String :=
  if t ∈ messageTypeValues then some t else none

/-- Inbound message data as received from JSON: either a dict or some
non-dict value. -/
inductive InData where
  | dict (d : List (String × PyVal))
  | nonDict
  deriving DecidableEq, Repr

/-- MessageValidator.validate_text_input: the data must be a dict with
a string-typed, non-empty (post-strip) text field; a violation raises
ProtocolError with the given message. -/
def validate_text_input (data : InData) : Except String Bool :=
  match data with
  | .nonDict => .error "Text input data must be a dictionary"
  | .dict d =>
    match lookupField d "text" with
    | none => .error "Text input must contain text field"
    | some v =>
      match v with
      | .str s =>
        if pyStrip s = "" then .error "Text cannot be empty"
        else .ok true
      | _ => .error "Text must be a string"

/-- MessageValidator.validate_audio_chunk: the data must be a dict with
a string-or-bytes audio field.  The byte case of the Python union is
modelled by PyVal.str as well (both satisfy the isinstance check); any
other type raises ProtocolError. -/
def validate_audio_chunk (data : InData) : Except String Bool :=
  match data with
  | .nonDict => .error "Audio chunk data must be a dictionary"
  | .dict d =>
    match lookupField d "audio" with
    | none => .error "Audio chunk must contain audio field"
    | some v =>
      match v with
      | .str _ => .ok true
      | _ => .error "Audio must be string or bytes"

/-- MessageValidator.validate_message: only text_input and audio_chunk
carry validation; every other type passes. -/
def validate_message (t : String) (data : InData) : Except String Bool :=
  if t = "text_input" then validate_text_input data
  else if t = "audio_chunk" then validate_audio_chunk data
  else .ok true

/- ============ server message loop (src/server.py 557-613) ============ -/

/-- The events each per-type handler would emit, supplied as parameters
so that one loop iteration can be studied independently of the handler
internals (the handlers are modelled separately). -/
structure HandlerOutcomes where
  textInput : List Event
  audioChunk : List Event
  startRecording : List Event
  stopRecording : List Event
  vadAudio : List Event
  deriving Repr

/-- One iteration of the websocket_endpoint message loop for an inbound
frame with the given type string and data: parsing a type string
outside the MessageType enum raises ValueError, which the generic
except clause answers with an internal-server-error event; a
ProtocolError from validation is answered with an error event carrying
its message; a recognized and validated type dispatches to its handler,
ping is answered with pong, and any other enum member falls through to
the logging-only else branch, emitting nothing. -/
def message_loop_iteration (h : HandlerOutcomes) (typeStr : String)
    (data : InData) : List Event :=
  match parseMessageType typeStr with
  | none => [Event.errorEvent "Internal server error"]
  | some t =>
    match validate_message t data with
    | .error e => [Event.errorEvent e]
    | .ok _ =>
      if t = "text_input" then h.textInput
      else if t = "audio_chunk" then h.audioChunk
      else if t = "start_recording" then h.startRecording
      else if t = "stop_recording" then h.stopRecording
      else if t = "vad_audio" then h.vadAudio
      else if t = "ping" then [Event.pong]
      else []

/- ============ handle_audio_chunk (src/server.py 329-356) ============ -/

/-- handle_audio_chunk: when the session has no audio stream the
handler logs a warning and returns without sending anything; otherwise
it calls AudioStreamHandler.add_audio_chunk, answering success with a
buffer-size status event and a raised AudioStreamingError with an error
event carrying the exception message. -/
def handle_audio_chunk (stream : Option AudioStreamHandler)
    (chunk : List Nat) : Option AudioStreamHandler × List Event :=
  match stream with
  | none => (none, [])
  | some st =>
    match add_audio_chunk st chunk with
    | .ok st2 =>
      (some st2,
       [Event.statusEvent ("Received audio chunk, buffer size: "
          ++ toString st2.buffer.data.length ++ " bytes")])
    | .error e => (some st, [Event.errorEvent e])

/-- The six inbound types the message loop dispatches to a handler
branch (ping included: it is answered with pong). -/
def handledInboundTypes : List String :=
  ["text_input", "audio_chunk", "start_recording", "stop_recording",
   "vad_audio", "ping"]

/-- Modelled from the claim (amended): the candidate unit texts of a
fragment stream — one candidate per fed fragment containing a terminal
marker, holding the stripped accumulation up to and including that
fragment, plus the stripped remainder at stream end.  The first
argument is the text already accumulated before the remaining
fragments. -/
def claimCandidates (acc : String) : List String → List String
  | [] => [pyStrip acc]
  | c :: rest =>
    if hasTerminal c then pyStrip (acc ++ c) :: claimCandidates "" rest
    else claimCandidates (acc ++ c) rest

/-- Modelled from the claim (amended): the emitted units are the
candidates that survive whitespace suppression, in order; a unit's
ordinal is its position in this list (monotonic from 0). -/
def claimUnits (chunks : List String) : List String :=
  (claimCandidates "" chunks).filter (fun u => u ≠ "")

/- ===================== theorems ===================== -/

/-- C3: for every capacity M and buffer state of size s, add_chunk
appends the chunk exactly when s plus the chunk length stays within M,
and raises the capacity error, leaving the buffer unchanged (the error
branch returns before any write), when the sum exceeds M. -/
theorem add_chunk_capacity (M : Nat) (data chunk : List Nat) :
    (data.length + chunk.length ≤ M →
      add_chunk ⟨data, M⟩ chunk = .ok ⟨data ++ chunk, M⟩) ∧
    (data.length + chunk.length > M →
      add_chunk ⟨data, M⟩ chunk =
        .error ("Buffer overflow: " ++ toString (data.length + chunk.length)
          ++ " > " ++ toString M)) := by
  constructor
  · intro h
    unfold add_chunk
    rw [if_neg (by simp only [Nat.not_lt]; exact h)]
  · intro h
    unfold add_chunk
    rw [if_pos h]

/-- Witness for add_chunk_capacity: a two-byte append into remaining
capacity succeeds, and the same append one byte past capacity fails
with the overflow error. -/
theorem add_chunk_capacity_witness :
    add_chunk ⟨[0, 1], 4⟩ [2, 3] = .ok ⟨[0, 1, 2, 3], 4⟩ ∧
    add_chunk ⟨[0, 1], 3⟩ [2, 3] = .error "Buffer overflow: 4 > 3" := by
  refine ⟨(add_chunk_capacity 4 [0, 1] [2, 3]).1 (by decide), ?_⟩
  rw [(add_chunk_capacity 3 [0, 1] [2, 3]).2 (by decide)]
  decide

/-- C5: when the primary synthesizer fails on a dispatched unit,
exactly one fallback attempt is made; when the fallback also fails, the
unit produces no audio event, and in every case the failure is
non-fatal and no error event is emitted by the task. -/
theorem synthesis_fallback_policy (s e : String)
    (f : Except String (List Nat)) (hs : pyStrip s ≠ "") :
    (stream_sentence_audio s (.error e) f).2 = 1 ∧
    (∀ fe, f = .error fe → (stream_sentence_audio s (.error e) f).1 = []) ∧
    (∀ ev, ev ∈ (stream_sentence_audio s (.error e) f).1 →
      ∀ m, ev ≠ Event.errorEvent m) := by
  unfold stream_sentence_audio
  rw [if_neg hs]
  cases f with
  | ok audio =>
    refine ⟨rfl, ?_, ?_⟩
    · intro fe hfe; cases hfe
    · intro ev hev m
      simp only [List.mem_singleton] at hev
      rw [hev]
      intro hc; cases hc
  | error fe =>
    refine ⟨rfl, fun _ _ => rfl, ?_⟩
    intro ev hev
    simp at hev

/-- Witness for synthesis_fallback_policy: a failing primary paired
with a failing fallback on a concrete sentence yields one fallback
attempt and no events. -/
theorem synthesis_fallback_policy_witness :
    (stream_sentence_audio "Hi." (.error "boom") (.error "boom2")).2 = 1 ∧
    (stream_sentence_audio "Hi." (.error "boom") (.error "boom2")).1 = [] :=
  ⟨(synthesis_fallback_policy "Hi." "boom" (.error "boom2") (by decide)).1,
   (synthesis_fallback_policy "Hi." "boom" (.error "boom2") (by decide)).2.1
     "boom2" rfl⟩

/-- C8 counterexample: an audio chunk arriving for a session that has
no audio stream (hence is not recording) is dropped with no event at
all — in particular, no error event reaches the client, refuting the
claim that every rejected chunk is surfaced as an error event. -/
theorem audio_chunk_silent_drop_counterexample :
    handle_audio_chunk none [1, 2, 3] = (none, []) := by decide

/-- C8 amended: an audio chunk arriving while a stream exists but is
not recording is rejected without touching the buffer and surfaced as
an error event; when no stream exists at all, the chunk is dropped
silently (a warning is only logged). -/
theorem audio_chunk_not_recording_amended (st : AudioStreamHandler)
    (chunk : List Nat) (hrec : st.is_recording = false) :
    handle_audio_chunk (some st) chunk =
      (some st, [Event.errorEvent "Not recording audio"]) ∧
    handle_audio_chunk none chunk = (none, []) := by
  constructor
  · simp only [handle_audio_chunk, add_audio_chunk, hrec]
    rfl
  · rfl

/-- Witness for audio_chunk_not_recording_amended at a concrete
non-recording stream state. -/
theorem audio_chunk_not_recording_amended_witness :
    handle_audio_chunk (some ⟨false, ⟨[], 16⟩⟩) [7] =
      (some ⟨false, ⟨[], 16⟩⟩, [Event.errorEvent "Not recording audio"]) ∧
    handle_audio_chunk none [7] = (none, []) :=
  audio_chunk_not_recording_amended ⟨false, ⟨[], 16⟩⟩ [7] rfl

/-- C9: both transcript call sites pass the session id positionally
into the is-final parameter of create_transcript_message, so the
emitted message carries the session-id string in its is-final data
field and a null envelope session id. -/
theorem transcript_is_final_holds_session_id (t sid : String) :
    lookupField (stop_recording_transcript_msg t sid).data "is_final" =
      some (.str sid) ∧
    (stop_recording_transcript_msg t sid).session_id = none ∧
    lookupField (vad_audio_transcript_msg t sid).data "is_final" =
      some (.str sid) ∧
    (vad_audio_transcript_msg t sid).session_id = none :=
  ⟨rfl, rfl, rfl, rfl⟩

/-- C7 counterexample: an inbound frame whose type string is outside
the MessageType enum is not silently ignored — building
MessageType(value) in from_json raises ValueError, which the generic
except clause answers with an internal-server-error event, so a reply
is sent, refuting the no-reply claim. -/
theorem unknown_type_replies_counterexample :
    message_loop_iteration ⟨[], [], [], [], []⟩ "bogus" (.dict []) =
      [Event.errorEvent "Internal server error"] ∧
    message_loop_iteration ⟨[], [], [], [], []⟩ "bogus" (.dict []) ≠ [] := by
  constructor
  · rfl
  · decide

/-- C7 amended: the log-and-ignore behavior applies exactly to frames
whose type is a MessageType member that is not one of the dispatched
inbound types (server-to-client types echoed back by a client); for
those no reply of any kind is sent, whatever the handlers would do.  A
type string outside the enum instead produces exactly one
internal-server-error event. -/
theorem unknown_type_amended (h : HandlerOutcomes) (t : String)
    (data : InData) :
    (t ∈ messageTypeValues → t ∉ handledInboundTypes →
      message_loop_iteration h t data = []) ∧
    (t ∉ messageTypeValues →
      message_loop_iteration h t data =
        [Event.errorEvent "Internal server error"]) := by
  constructor
  · intro hmem hnh
    simp only [handledInboundTypes, List.mem_cons, List.not_mem_nil,
      or_false, not_or] at hnh
    obtain ⟨h1, h2, h3, h4, h5, h6⟩ := hnh
    simp [message_loop_iteration, parseMessageType, validate_message,
      hmem, h1, h2, h3, h4, h5, h6]
  · intro hmem
    simp [message_loop_iteration, parseMessageType, hmem]

/-- Witness for unknown_type_amended: a client echoing the
server-to-client type status gets no reply, and the type bogus gets the
internal-server-error reply. -/
theorem unknown_type_amended_witness :
    message_loop_iteration ⟨[], [], [], [], []⟩ "status" (.dict []) = [] ∧
    message_loop_iteration ⟨[], [], [], [], []⟩ "bogus2" (.dict []) =
      [Event.errorEvent "Internal server error"] :=
  ⟨(unknown_type_amended ⟨[], [], [], [], []⟩ "status" (.dict [])).1
     (by decide) (by decide),
   (unknown_type_amended ⟨[], [], [], [], []⟩ "bogus2" (.dict [])).2
     (by decide)⟩

/-- C1 counterexample: with three dispatched units whose synthesis
tasks complete in ordinal order [2, 0, 1], the transport log holds the
audio events in exactly that order — each task sends as soon as its own
synthesize call returns and nothing reorders the sends — refuting the
claimed release order [0, 1, 2]. -/
theorem delivery_order_counterexample :
    (runSched 3 [2, 0, 1]).log = [2, 0, 1] ∧
    (runSched 3 [2, 0, 1]).log ≠ [0, 1, 2] := by decide

/-- Helper for the amended delivery-order statement: folding completion
events over the scheduler appends each completing pending ordinal to
the log in completion order. -/
theorem sched_foldl_log (seq pending log : List Nat)
    (hnodup : seq.Nodup) (hmem : ∀ i ∈ seq, i ∈ pending) :
    (seq.foldl schedStep ⟨pending, log⟩).log = log ++ seq := by
  induction seq generalizing pending log with
  | nil => simp
  | cons i rest ih =>
    have hi : i ∈ pending := hmem i (List.mem_cons_self i rest)
    have hnd := List.nodup_cons.mp hnodup
    simp only [List.foldl_cons]
    have hstep : schedStep ⟨pending, log⟩ i = ⟨pending.erase i, log ++ [i]⟩ := by
      unfold schedStep
      rw [if_pos hi]
    rw [hstep, ih (pending.erase i) (log ++ [i]) hnd.2 ?_]
    · simp
    · intro j hj
      exact (List.mem_erase_of_ne
        (by intro he; exact hnd.1 (he ▸ hj))).mpr (hmem j (List.mem_cons_of_mem i hj))

/-- C1 amended: audio-delta events reach the transport in synthesis
completion order, not ordinal order — for any set of dispatched units
and any completion order of their tasks, the transport log equals the
completion sequence itself. -/
theorem delivery_order_amended (n : Nat) (seq : List Nat)
    (hnodup : seq.Nodup) (hlt : ∀ i ∈ seq, i < n) :
    (runSched n seq).log = seq := by
  unfold runSched
  rw [sched_foldl_log seq (List.range n) [] hnodup
    (fun i hi => List.mem_range.mpr (hlt i hi))]
  simp

/-- Witness for delivery_order_amended: four tasks completing in order
[1, 3, 0, 2] are observed in exactly that order. -/
theorem delivery_order_amended_witness :
    (runSched 4 [1, 3, 0, 2]).log = [1, 3, 0, 2] :=
  delivery_order_amended 4 [1, 3, 0, 2] (by decide) (by decide)

/-- C4 counterexample: the fragment stream consisting of whitespace
and a bare newline has exactly one marker-containing fragment, yet the
segmenter emits no unit for it (the stripped accumulation is empty and
suppressed), refuting the claim that every marker-containing fragment
yields one unit. -/
theorem segmenter_suppression_counterexample :
    (List.filter (fun c => hasTerminal c) ["   ", "\n"]).length = 1 ∧
    segmentUnits ["   ", "\n"] = [] := by decide

/-- Helper for the amended segmenter statement: folding the stream-loop
body from an arbitrary segmentation state and then flushing yields the
already-dispatched units followed by the surviving candidates of the
remaining fragments. -/
theorem flush_foldl_feedChunk (chunks : List String) :
    ∀ (acc : String) (us cs : List String),
      flushSeg (chunks.foldl feedChunk ⟨acc, us, cs⟩) =
        us ++ (claimCandidates acc chunks).filter (fun u => u ≠ "") := by
  induction chunks with
  | nil =>
    intro acc us cs
    simp only [List.foldl_nil]
    have hcand : claimCandidates acc [] = [pyStrip acc] := rfl
    rw [hcand]
    by_cases h : pyStrip acc = ""
    · simp [flushSeg, List.filter, h]
    · simp [flushSeg, List.filter, h]
  | cons c rest ih =>
    intro acc us cs
    simp only [List.foldl_cons]
    have hcand : claimCandidates acc (c :: rest) =
        if hasTerminal c then pyStrip (acc ++ c) :: claimCandidates "" rest
        else claimCandidates (acc ++ c) rest := rfl
    rw [hcand]
    by_cases hterm : hasTerminal c
    · rw [if_pos hterm]
      by_cases hu : pyStrip (acc ++ c) = ""
      · have hfeed : feedChunk ⟨acc, us, cs⟩ c = ⟨"", us, cs⟩ := by
          unfold feedChunk
          rw [if_pos hterm, if_neg (by simp [hu])]
        rw [hfeed, ih "" us cs]
        simp [List.filter, hu]
      · have hfeed : feedChunk ⟨acc, us, cs⟩ c =
            ⟨"", us ++ [pyStrip (acc ++ c)], cs ++ [pyStrip (acc ++ c)]⟩ := by
          unfold feedChunk
          rw [if_pos hterm, if_pos hu]
        rw [hfeed, ih "" (us ++ [pyStrip (acc ++ c)]) (cs ++ [pyStrip (acc ++ c)])]
        simp [List.filter, hu]
    · rw [if_neg hterm]
      have hfeed : feedChunk ⟨acc, us, cs⟩ c = ⟨acc ++ c, us, cs⟩ := by
        unfold feedChunk
        rw [if_neg hterm]
      rw [hfeed, ih (acc ++ c) us cs]

/-- C4 amended: one unit is emitted per fed fragment containing a
terminal marker provided the stripped accumulation is non-empty
(whitespace-only accumulations are suppressed, though the accumulator
still resets), the unit text is the stripped accumulation up to and
including that fragment, the stripped non-empty remainder is flushed at
stream end, and ordinals are the positions in the resulting unit list
(monotonic from 0); the worked example emits exactly the units
Hello world. and Next. -/
theorem segmenter_amended (chunks : List String) :
    segmentUnits chunks = claimUnits chunks ∧
    segmentUnits ["Hello", " world.", " Next"] = ["Hello world.", "Next"] := by
  constructor
  · unfold segmentUnits claimUnits segInit
    exact flush_foldl_feedChunk chunks "" [] []
  · decide

/-- Helper: for a positive capacity, the truncation step keeps exactly
the last N entries, expressed as a drop from the front. -/
theorem truncateToMax_eq_drop (N : Nat) (hN : 1 ≤ N)
    (l : List GeminiMessage) :
    truncateToMax N l = l.drop (l.length - N) := by
  unfold truncateToMax pySliceLast
  by_cases h : l.length > N
  · rw [if_pos h, if_neg (by omega)]
  · rw [if_neg h]
    have h0 : l.length - N = 0 := by omega
    rw [h0, List.drop_zero]

/-- Helper: truncating, appending and truncating again agrees with
truncating the full concatenation, for any positive capacity. -/
theorem truncateToMax_trunc_append (N : Nat) (hN : 1 ≤ N)
    (l l₂ : List GeminiMessage) :
    truncateToMax N (truncateToMax N l ++ l₂) = truncateToMax N (l ++ l₂) := by
  rw [truncateToMax_eq_drop N hN l, truncateToMax_eq_drop N hN _,
    truncateToMax_eq_drop N hN (l ++ l₂)]
  simp only [List.drop_append_eq_append_drop, List.drop_drop,
    List.length_drop, List.length_append]
  congr 1
  · congr 1
    omega
  · congr 1
    omega

/-- Helper: a valid add on a memory of capacity N yields the truncated
append. -/
theorem add_message_valid (N : Nat) (msgs : List GeminiMessage)
    (p : String × String) (hp : validAdd p) :
    add_message ⟨N, msgs⟩ p.1 p.2 =
      .ok ⟨N, truncateToMax N (msgs ++ [mkGeminiMessage p.1 p.2])⟩ := by
  obtain ⟨hrole, hne, hstrip⟩ := hp
  unfold add_message
  rw [if_neg (by simp [hrole]), if_neg (not_or.mpr ⟨hne, hstrip⟩)]

/-- Helper: a run of valid adds on a positive capacity keeps exactly
the truncated concatenation of the starting entries and the added
messages. -/
theorem addAll_ok_general (N : Nat) (hN : 1 ≤ N) :
    ∀ (l : List (String × String)) (msgs : List GeminiMessage),
      (∀ p ∈ l, validAdd p) → msgs.length ≤ N →
      addAll ⟨N, msgs⟩ l =
        .ok ⟨N, truncateToMax N
          (msgs ++ l.map fun p => mkGeminiMessage p.1 p.2)⟩ := by
  intro l
  induction l with
  | nil =>
    intro msgs _ hm
    simp only [addAll, List.map_nil, List.append_nil]
    rw [truncateToMax_eq_drop N hN]
    have h0 : msgs.length - N = 0 := by omega
    rw [h0, List.drop_zero]
  | cons p rest ih =>
    intro msgs hv hm
    have step : addAll ⟨N, msgs⟩ (p :: rest) =
        addAll ⟨N, truncateToMax N (msgs ++ [mkGeminiMessage p.1 p.2])⟩ rest := by
      simp only [addAll]
      rw [add_message_valid N msgs p (hv p (List.mem_cons_self p rest))]
    rw [step]
    rw [ih (truncateToMax N (msgs ++ [mkGeminiMessage p.1 p.2]))
      (fun q hq => hv q (List.mem_cons_of_mem p hq)) ?_]
    · rw [truncateToMax_trunc_append N hN]
      simp
    · rw [truncateToMax_eq_drop N hN]
      simp only [List.length_drop]
      omega

/-- C2: for every capacity N at least 1, a run of k valid add_message
calls from an empty ConversationMemory leaves exactly the most recent
min(k, N) added messages in insertion order — strict FIFO eviction of
the oldest. -/
theorem bounded_log_fifo (N : Nat) (l : List (String × String))
    (hN : 1 ≤ N) (hv : ∀ p ∈ l, validAdd p) :
    addAll (emptyMemory N) l =
      .ok ⟨N, (l.map fun p => mkGeminiMessage p.1 p.2).drop (l.length - N)⟩ ∧
    ((l.map fun p => mkGeminiMessage p.1 p.2).drop (l.length - N)).length =
      min l.length N := by
  constructor
  · have h := addAll_ok_general N hN l [] hv (by simp)
    rw [truncateToMax_eq_drop N hN] at h
    simpa [emptyMemory] using h
  · simp only [List.length_drop, List.length_map]
    omega

/-- Witness for bounded_log_fifo: capacity 2 with three valid adds
keeps the last two messages in order. -/
theorem bounded_log_fifo_witness :
    addAll (emptyMemory 2) [("user", "a"), ("model", "b"), ("user", "c")] =
      .ok ⟨2, ([("user", "a"), ("model", "b"), ("user", "c")].map
        fun p => mkGeminiMessage p.1 p.2).drop
          ([("user", "a"), ("model", "b"), ("user", "c")].length - 2)⟩ ∧
    (([("user", "a"), ("model", "b"), ("user", "c")].map
        fun p => mkGeminiMessage p.1 p.2).drop
          ([("user", "a"), ("model", "b"), ("user", "c")].length - 2)).length =
      min [("user", "a"), ("model", "b"), ("user", "c")].length 2 :=
  bounded_log_fifo 2 [("user", "a"), ("model", "b"), ("user", "c")]
    (by decide) (by decide)

/-- Helper: with capacity 0 the slice [-0:] keeps the whole list, so
the truncation step never removes anything. -/
theorem truncateToMax_zero (l : List GeminiMessage) :
    truncateToMax 0 l = l := by
  unfold truncateToMax pySliceLast
  split <;> simp

/-- Helper: with capacity 0 every valid add appends without evicting. -/
theorem addAll_zero (l : List (String × String)) :
    ∀ msgs, (∀ p ∈ l, validAdd p) →
      addAll ⟨0, msgs⟩ l =
        .ok ⟨0, msgs ++ l.map fun p => mkGeminiMessage p.1 p.2⟩ := by
  induction l with
  | nil =>
    intro msgs _
    simp [addAll]
  | cons p rest ih =>
    intro msgs hv
    have step : addAll ⟨0, msgs⟩ (p :: rest) =
        addAll ⟨0, msgs ++ [mkGeminiMessage p.1 p.2]⟩ rest := by
      simp only [addAll]
      rw [add_message_valid 0 msgs p (hv p (List.mem_cons_self p rest)),
        truncateToMax_zero]
    rw [step]
    rw [ih (msgs ++ [mkGeminiMessage p.1 p.2])
      (fun q hq => hv q (List.mem_cons_of_mem p hq))]
    simp

/-- C10: a ConversationMemory built with max_messages = 0 never
evicts — k valid adds leave all k messages, so the capacity bound
len(history) ≤ max_messages is violated for every k ≥ 1; the invariant
needs max_messages ≥ 1. -/
theorem zero_capacity_never_evicts (l : List (String × String))
    (hv : ∀ p ∈ l, validAdd p) :
    addAll (emptyMemory 0) l =
      .ok ⟨0, l.map fun p => mkGeminiMessage p.1 p.2⟩ ∧
    (1 ≤ l.length →
      ¬ ((l.map fun p => mkGeminiMessage p.1 p.2).length ≤ 0)) := by
  constructor
  · have h := addAll_zero l [] hv
    simpa [emptyMemory] using h
  · intro hk
    simp only [List.length_map]
    omega

/-- Witness for zero_capacity_never_evicts: one valid add at capacity 0
is retained and breaks the bound. -/
theorem zero_capacity_never_evicts_witness :
    addAll (emptyMemory 0) [("user", "hi")] =
      .ok ⟨0, [("user", "hi")].map fun p => mkGeminiMessage p.1 p.2⟩ ∧
    ¬ (([("user", "hi")].map fun p => mkGeminiMessage p.1 p.2).length ≤ 0) :=
  ⟨(zero_capacity_never_evicts [("user", "hi")] (by decide)).1,
   (zero_capacity_never_evicts [("user", "hi")] (by decide)).2 (by decide)⟩

/-- C6: when the LLM stream raises a provider error after any number
of fragments, handle_text_input returns normally (the session loop
survives and the session is back to idle), its emitted events end with
exactly one error event, no assistant Turn is appended, and — for any
positive capacity — the conversation log ends with the user Turn of the
aborted cycle. -/
theorem llm_error_aborts_cycle (mem : ConversationMemory) (text : String)
    (chunks : List String) (e : String) (memUser : ConversationMemory)
    (hadd : add_message mem "user" text = .ok memUser) :
    handle_text_input mem text ⟨chunks, some e⟩ =
      .ok (memUser, chunks.map Event.textResponse ++ [Event.errorEvent e],
        (chunks.foldl feedChunk segInit).units) ∧
    (1 ≤ mem.max_messages →
      memUser.messages.getLast? = some (mkGeminiMessage "user" text)) := by
  constructor
  · simp only [handle_text_input]
    rw [hadd]
  · intro hN
    unfold add_message at hadd
    rw [if_neg (by decide)] at hadd
    by_cases hc : text = "" ∨ pyStrip text = ""
    · rw [if_pos hc] at hadd
      cases hadd
    · rw [if_neg hc] at hadd
      injection hadd with h1
      rw [← h1]
      rw [truncateToMax_eq_drop mem.max_messages hN]
      rw [List.drop_append_eq_append_drop]
      have h0 : (mem.messages ++ [mkGeminiMessage "user" text]).length -
          mem.max_messages - mem.messages.length = 0 := by
        simp only [List.length_append, List.length_cons, List.length_nil]
        omega
      rw [h0, List.drop_zero]
      exact List.getLast?_concat _

/-- Witness for llm_error_aborts_cycle: a provider error after one
fragment on a fresh session of capacity 5. -/
theorem llm_error_aborts_cycle_witness :
    handle_text_input (emptyMemory 5) "hi" ⟨["A."], some "boom"⟩ =
      .ok (⟨5, [mkGeminiMessage "user" "hi"]⟩,
        ["A."].map Event.textResponse ++ [Event.errorEvent "boom"],
        (["A."].foldl feedChunk segInit).units) ∧
    (⟨5, [mkGeminiMessage "user" "hi"]⟩ :
        ConversationMemory).messages.getLast? =
      some (mkGeminiMessage "user" "hi") :=
  ⟨(llm_error_aborts_cycle (emptyMemory 5) "hi" ["A."] "boom"
      ⟨5, [mkGeminiMessage "user" "hi"]⟩ (by decide)).1,
   (llm_error_aborts_cycle (emptyMemory 5) "hi" ["A."] "boom"
      ⟨5, [mkGeminiMessage "user" "hi"]⟩ (by decide)).2 (by decide)⟩

end VoiceAI
